import Mathlib

/-!
# Verification of the sharp-js image-geometry core

Shallow embedding of the geometry decision/calculation engine of the
repository (src/sharp-wrapper.ts, src/resize-and-transform.ts,
src/crop-image.ts and their utils).  JavaScript numbers are modelled as
exact rationals (`ℚ`); `Math.round` is round-half-up (`⌊q + 1/2⌋`),
`Math.floor` is `⌊·⌋`.  Optional JS values are `Option` and JS
truthiness of a number is "present and nonzero".
-/

namespace SharpJS

/-- JS `Math.round` on a rational: round half toward positive infinity. -/
def jround (q : ℚ) : ℤ := ⌊q + 1/2⌋

/-- JS `Math.floor` on a rational. -/
def jfloor (q : ℚ) : ℤ := ⌊q⌋

/-- JS truthiness of an optional natural-number value: `undefined` and `0`
are falsy. -/
def truthyN : Option ℕ → Bool
  | none => false
  | some n => n != 0

/-- JS truthiness of an optional rational value: `undefined` and `0` are
falsy. -/
def truthyQ : Option ℚ → Bool
  | none => false
  | some q => q != 0

/-- JS truthiness of an optional boolean: `undefined` is falsy. -/
def truthyB : Option Bool → Bool
  | none => false
  | some b => b

/-- JS `t || 1` on an optional natural number: `undefined` and `0` fall back
to `1`.  Used for the aspect-ratio fallback in `getImageResizeAction`
(src/resize-and-transform.ts line 131). -/
def jsOr1 : Option ℕ → ℕ
  | none => 1
  | some n => if n = 0 then 1 else n

/-- The `fit` modes of `ResizeOptions` (src/types.ts). -/
inductive Fit where
  | cover
  | contain
  | fill
  | inside
  | outside
deriving DecidableEq, Repr

/-- The three possible outcomes of `getImageResizeAction`
(src/resize-and-transform.ts lines 89-147). -/
inductive ResizeAction where
  | omit
  | resize
  | resizeWithFocalPoint
deriving DecidableEq, Repr

/-- `calculateResizeDimensions` (src/sharp-wrapper.ts lines 1099-1181);
the async `resize` method (lines 98-197) computes the final dimensions with
the very same branching, so a single embedding covers both.  `imageW`,
`imageH` are the decoded image's dimensions; `tw`, `th` the requested
`width`/`height` options (absent = `none`); `fit` defaults to `cover`
upstream, so it is taken here as a plain `Fit`.  The TS guards
`if (targetWidth && targetHeight)` use JS truthiness, hence `truthyQ`. -/
def calculateResizeDimensions (imageW imageH : ℚ) (tw th : Option ℚ)
    (fit : Fit) : ℚ × ℚ :=
  if truthyQ tw = true ∧ truthyQ th = true then
    let targetWidth := tw.getD 0
    let targetHeight := th.getD 0
    if fit = .fill then
      (targetWidth, targetHeight)
    else if fit = .contain ∨ fit = .inside then
      let aspectRatio := imageW / imageH
      if imageW / imageH > targetWidth / targetHeight then
        let finalWidth := targetWidth
        let finalHeight : ℚ := (jround (targetWidth / aspectRatio) : ℤ)
        if finalHeight > targetHeight ∧ fit = .inside then
          ((jround (targetHeight * aspectRatio) : ℤ), targetHeight)
        else
          (finalWidth, finalHeight)
      else
        let finalHeight := targetHeight
        let finalWidth : ℚ := (jround (targetHeight * aspectRatio) : ℤ)
        if finalWidth > targetWidth ∧ fit = .inside then
          (targetWidth, ((jround (targetWidth / aspectRatio) : ℤ) : ℚ))
        else
          (finalWidth, finalHeight)
    else if fit = .cover then
      let aspectRatio := imageW / imageH
      let targetAspectRatio := targetWidth / targetHeight
      if aspectRatio > targetAspectRatio then
        (((jround (targetHeight * aspectRatio) : ℤ) : ℚ), targetHeight)
      else
        (targetWidth, ((jround (targetWidth / aspectRatio) : ℤ) : ℚ))
    else if fit = .outside then
      let aspectRatio := imageW / imageH
      let targetAspectRatio := targetWidth / targetHeight
      if aspectRatio > targetAspectRatio then
        let finalWidth : ℚ := max targetWidth ((jround (targetHeight * aspectRatio) : ℤ) : ℚ)
        (finalWidth, ((jround (finalWidth / aspectRatio) : ℤ) : ℚ))
      else
        let finalHeight : ℚ := max targetHeight ((jround (targetWidth / aspectRatio) : ℤ) : ℚ)
        (((jround (finalHeight * aspectRatio) : ℤ) : ℚ), finalHeight)
    else
      -- unreachable for the five-valued enum: the TS initialization values
      (imageW, imageH)
  else if truthyQ tw = true then
    let targetWidth := tw.getD 0
    (targetWidth, ((jround (targetWidth / (imageW / imageH)) : ℤ) : ℚ))
  else if truthyQ th = true then
    let targetHeight := th.getD 0
    (((jround (targetHeight * (imageW / imageH)) : ℤ) : ℚ), targetHeight)
  else
    (imageW, imageH)

/-- The `originalImageIsSmallerXOrY` test of `getImageResizeAction`
(src/resize-and-transform.ts lines 120-121):
`originalImage.width < (targetWidth || 0) || originalImage.height < (targetHeight || 0)`.
`t || 0` collapses both `undefined` and `0` to `0`, which is `Option.getD 0`. -/
def originalImageIsSmallerXOrY (origW origH : ℕ) (tw th : Option ℕ) : Bool :=
  decide (origW < tw.getD 0) || decide (origH < th.getD 0)

/-- `getImageResizeAction` (src/resize-and-transform.ts lines 89-147).
`fit` is the (optional) configured fit; `tw`/`th` the configured target
width/height.  The rule order is exactly the source's early-return order.
The fourth rule's `isNumber` helper (src/utils/is-number.ts, absent from
the sources — only its import and call sites exist) is modelled from the
spec: rule 4 fires when "neither width nor height is set", i.e. when both
options are `none`. -/
def getImageResizeAction (origW origH : ℕ) (tw th : Option ℕ)
    (fit : Option Fit) (withoutEnlargement withoutReduction : Option Bool)
    (hasFocalPoint : Bool) : ResizeAction :=
  if truthyN th = true ∧ truthyN tw = true ∧ withoutEnlargement = none ∧
      origW < tw.getD 0 ∧ origH < th.getD 0 then
    .omit
  else if withoutEnlargement = none ∧ (truthyN tw = false ∨ truthyN th = false) ∧
      ((truthyN tw = true ∧ origW < tw.getD 0) ∨
        (truthyN th = true ∧ origH < th.getD 0)) then
    .omit
  else if fit = some .contain ∨ fit = some .inside then
    .resize
  else if tw = none ∧ th = none then
    .resize
  else if (origW : ℚ) / (origH : ℚ) = (jsOr1 tw : ℚ) / (jsOr1 th : ℚ) then
    .resize
  else if truthyB withoutEnlargement = true ∧
      originalImageIsSmallerXOrY origW origH tw th = true then
    .resize
  else if truthyB withoutReduction = true ∧
      originalImageIsSmallerXOrY origW origH tw th = false then
    .resize
  else if hasFocalPoint then .resizeWithFocalPoint else .resize

/-- `extractHeightFromImage` (src/utils/extract-height-from-image.ts):
`if (metadata.pages && metadata.pages > 1) return metadata.height / metadata.pages`.
The truthiness guard plus the `> 1` comparison reduce to `1 < p`. -/
def extractHeightFromImage (pages : Option ℕ) (height : ℚ) : ℚ :=
  match pages with
  | some p => if 1 < p then height / (p : ℚ) else height
  | none => height

/-- A crop window as handed to `extract` (src/resize-and-transform.ts
lines 308-313): `left`/`top` are `Math.floor`ed, `width`/`height` are the
resolved resize targets. -/
structure CropWindow where
  left : ℤ
  top : ℤ
  width : ℚ
  height : ℚ
deriving DecidableEq, Repr

/-- Result of the focal-crop branch: the pre-scaled image's dimensions as
read back from the encode result (`info.width`/`info.height` of the
`toBuffer` call at src/resize-and-transform.ts lines 273-280) together
with the crop window passed to `extract`. -/
structure FocalPlan where
  prioritizeHeight : Bool
  prescaleWidth : ℚ
  prescaleHeight : ℚ
  window : CropWindow
deriving DecidableEq, Repr

/-- One axis of the crop-window computation (src/resize-and-transform.ts
lines 282-306): focal center, right/bottom overflow reset, then clamp at
zero.  `extent` is the (animated-normalized) pre-scaled extent along this
axis, `target` the resolved resize target, `focalPct` the focal-point
percentage. -/
def cropBound (extent target focalPct : ℚ) : ℚ :=
  let half := target / 2
  let focalCenter := extent * (focalPct / 100)
  let calculatedFarBound := focalCenter + half
  let bound := focalCenter - half
  let bound' := if calculatedFarBound > extent then extent - target else bound
  if bound' < 0 then 0 else bound'

/-- The `resizeWithFocalPoint` branch of `resizeAndTransformImageSizes`
(src/resize-and-transform.ts lines 235-313).  `origW`/`origH` are the
original image's dimensions (`adjustedDimensions`, which equal the decoded
image's dimensions for a consistent source); `pages` is
`originalImageMeta.pages` (this repository's `SharpWrapper.metadata`,
src/sharp-wrapper.ts lines 955-996, never reports `pages`, so the
integrated pipeline always has `pages = none`); `cfgW`/`cfgH` are the
variant's configured `width`/`height`; `focalX`/`focalY` the focal-point
percentages.  The pre-scale `resize({fit: cover, ...})` call materializes
through the wrapper's dimension logic, so the read-back encode dimensions
are `calculateResizeDimensions` of the decoded image.
The target-resolution prelude (lines 236-254) lives in
`resolveFocalTargets`. -/
def resolveFocalTargets (origW origH : ℕ) (pages : Option ℕ)
    (cfgW cfgH : Option ℕ) : ℚ × ℚ :=
  -- resizeImageMeta before the pre-scale
  let metaW0 : ℚ := (origW : ℚ)
  let metaH0 : ℚ := extractHeightFromImage pages (origH : ℚ)
  let originalAspectRatio : ℚ := (origW : ℚ) / (origH : ℚ)
  -- let { height: resizeHeight, width: resizeWidth } = imageResizeConfig
  let rh0 : Option ℚ := cfgH.map (fun n => (n : ℚ))
  let rw0 : Option ℚ := cfgW.map (fun n => (n : ℚ))
  -- if (resizeHeight && !resizeWidth) resizeWidth = Math.round(resizeHeight * aspect)
  let rw1 : Option ℚ :=
    if truthyQ rh0 = true ∧ truthyQ rw0 = false then
      some ((jround (rh0.getD 0 * originalAspectRatio) : ℤ) : ℚ)
    else rw0
  -- if (resizeWidth && !resizeHeight) resizeHeight = Math.round(resizeWidth / aspect)
  let rh1 : Option ℚ :=
    if truthyQ rw1 = true ∧ truthyQ rh0 = false then
      some ((jround (rw1.getD 0 / originalAspectRatio) : ℤ) : ℚ)
    else rh0
  -- if (!resizeHeight) resizeHeight = resizeImageMeta.height
  let resizeHeight : ℚ := if truthyQ rh1 = false then metaH0 else rh1.getD 0
  -- if (!resizeWidth) resizeWidth = resizeImageMeta.width
  let resizeWidth : ℚ := if truthyQ rw1 = false then metaW0 else rw1.getD 0
  (resizeWidth, resizeHeight)

/-- The pre-scale of the focal-crop branch (src/resize-and-transform.ts
lines 260-265): `resize({fit: cover, height: prioritizeHeight ? h : undefined,
width: prioritizeHeight ? undefined : w})`, whose encode result is read
back at lines 273-280. -/
def focalPrescale (origW origH : ℕ) (prioritizeHeight : Bool)
    (resizeWidth resizeHeight : ℚ) : ℚ × ℚ :=
  calculateResizeDimensions (origW : ℚ) (origH : ℚ)
    (if prioritizeHeight then none else some resizeWidth)
    (if prioritizeHeight then some resizeHeight else none) .cover

/-- The focal-crop branch assembled (src/resize-and-transform.ts lines
235-313). -/
def focalCropPlan (origW origH : ℕ) (pages : Option ℕ) (cfgW cfgH : Option ℕ)
    (focalX focalY : ℚ) : FocalPlan :=
  let rt := resolveFocalTargets origW origH pages cfgW cfgH
  let resizeWidth := rt.1
  let resizeHeight := rt.2
  let originalAspectRatio : ℚ := (origW : ℚ) / (origH : ℚ)
  let resizeAspectRatio := resizeWidth / resizeHeight
  let prioritizeHeight : Bool := decide (resizeAspectRatio < originalAspectRatio)
  let prescale := focalPrescale origW origH prioritizeHeight resizeWidth resizeHeight
  -- resizeImageMeta after the pre-scale (height animated-normalized again)
  let metaW1 : ℚ := prescale.1
  let metaH1 : ℚ := extractHeightFromImage pages prescale.2
  let leftBound := cropBound metaW1 resizeWidth focalX
  let topBound := cropBound metaH1 resizeHeight focalY
  { prioritizeHeight := prioritizeHeight
    prescaleWidth := prescale.1
    prescaleHeight := prescale.2
    window :=
      { left := jfloor leftBound
        top := jfloor topBound
        width := resizeWidth
        height := resizeHeight } }

/-- The animated image mime types (src/resize-and-transform.ts line 197,
src/crop-image.ts line 33). -/
def animatedTypes : List String := ["image/avif", "image/gif", "image/webp"]

/-- `fileIsAnimatedType`: membership of the file's mimetype in the
animated-type list. -/
def fileIsAnimatedType (mimetype : String) : Bool :=
  animatedTypes.contains mimetype

/-- The reported `height` of a variant result (src/resize-and-transform.ts
lines 399-402): `fileIsAnimatedType && originalImageMeta.pages ?
height / originalImageMeta.pages : height`. -/
def reportedVariantHeight (animated : Bool) (pages : Option ℕ)
    (rawHeight : ℚ) : ℚ :=
  if animated = true ∧ truthyN pages = true then rawHeight / (pages.getD 0 : ℚ)
  else rawHeight

/-- One entry of `sizeData` (the `ImageSizesResult` record of
src/resize-and-transform.ts lines 71-84); `none` models `null`. -/
structure SizeRecord where
  filename : Option String
  filesize : Option ℚ
  height : Option ℚ
  mimeType : Option String
  width : Option ℚ
deriving DecidableEq, Repr

/-- A file queued for persistence (`FileToSave`); the byte buffer is
abstracted to an identifier. -/
structure FileToSave where
  buffer : ℕ
  path : String
deriving DecidableEq, Repr

/-- `ImageSizesResult` for a single variant: the name-keyed record plus the
files to save. -/
structure ImageSizesResult where
  sizeName : String
  record : SizeRecord
  sizesToSave : List FileToSave
deriving DecidableEq, Repr

/-- `createResult` (src/resize-and-transform.ts lines 55-84): every field
other than the name defaults to `null`, and `sizesToSave` defaults to the
empty list. -/
def createResult (name : String) (filename : Option String := none)
    (filesize : Option ℚ := none) (height : Option ℚ := none)
    (mimeType : Option String := none) (sizesToSave : List FileToSave := [])
    (width : Option ℚ := none) : ImageSizesResult :=
  { sizeName := name
    record :=
      { filename := filename
        filesize := filesize
        height := height
        mimeType := mimeType
        width := width }
    sizesToSave := sizesToSave }

/-- An `ImageSize` variant spec (src/types.ts lines 159-176; the
format/trim/naming options play no role in the geometry decisions). -/
structure SizeSpec where
  name : String
  width : Option ℕ
  height : Option ℕ
  fit : Option Fit
  position : Option String
  withoutEnlargement : Option Bool
  withoutReduction : Option Bool
deriving DecidableEq, Repr

/-- `sanitizeResizeConfig` (src/resize-and-transform.ts lines 152-161):
when `withoutReduction` is truthy, default `fit` to `contain` and
`position` to `"left top"` (JS `||` on these option values). -/
def sanitizeResizeConfig (c : SizeSpec) : SizeSpec :=
  if truthyB c.withoutReduction = true then
    { c with
      fit := some (c.fit.getD .contain)
      position := some (c.position.getD "left top") }
  else c

/-- The calls a variant makes into the raster engine (the `SharpWrapper`
resize/extract/encode surface). -/
inductive EngineCall where
  | resize
  | extract
  | toFormat
  | trim
  | toBuffer
deriving DecidableEq, Repr

/-- The per-variant step of `resizeAndTransformImageSizes`
(src/resize-and-transform.ts lines 218-229): sanitize the config, decide
the action, and on `omit` return `createResult({ name })` immediately —
before any `SharpWrapper` work.  The non-omit continuation (lines
231-406), which performs the raster-engine calls and builds the populated
result, is abstracted as `engineWork`. -/
def variantStep (origW origH : ℕ) (spec : SizeSpec) (hasFocalPoint : Bool)
    (engineWork : SizeSpec → ImageSizesResult × List EngineCall) :
    ImageSizesResult × List EngineCall :=
  let s := sanitizeResizeConfig spec
  let action := getImageResizeAction origW origH s.width s.height s.fit
    s.withoutEnlargement s.withoutReduction hasFocalPoint
  if action = .omit then (createResult spec.name, [])
  else engineWork s

/-- `percentToPixel` (src/utils/percent-to-pixel.ts):
`Math.floor((value / 100) * dimension)`. -/
def percentToPixel (value dimension : ℚ) : ℤ :=
  jfloor (value / 100 * dimension)

/-- The payload file handed to `cropImage`; the byte buffer is abstracted
to an identifier. -/
structure PayloadFileModel where
  data : ℕ
  size : ℚ
  mimetype : String
deriving DecidableEq, Repr

/-- The `info` record returned by `cropImage`. -/
structure CropInfo where
  height : ℚ
  size : ℚ
  width : ℚ
deriving DecidableEq, Repr

/-- Outcome of `cropImage`: either the early passthrough return (no crop)
or a crop via `extract` with the given `formattedCropData`; in the crop
case `width`/`height` keep the raw optional inputs (`Number(undefined)` is
`NaN`, modelled as `none`). -/
inductive CropOutcome where
  | passthrough (data : ℕ) (info : CropInfo)
  | cropped (left top : ℤ) (width height : Option ℚ)
deriving DecidableEq, Repr

/-- `cropImage` (src/crop-image.ts lines 17-106) up to the raster-engine
boundary.  `dimensionsChanged` is
`originalWidth !== Number(widthInPixels) || originalHeight !== Number(heightInPixels)`;
a missing pixel value converts to `NaN` and therefore always differs.
When the dimensions are unchanged the original bytes are returned with
`{height, size, width}` taken from the inputs (for an animated file with
reported pages, the metadata height is used); otherwise the
`formattedCropData` region is extracted.  `metaPages`/`metaHeight` are the
file's `SharpWrapper.metadata()` fields (that metadata never reports
`pages` in this repository). -/
def cropImageModel (cropX cropY : ℚ) (dimsW dimsH : ℚ)
    (file : PayloadFileModel) (widthInPixels heightInPixels : Option ℚ)
    (metaPages : Option ℕ) (metaHeight : ℚ) : CropOutcome :=
  let animated := fileIsAnimatedType file.mimetype
  let dimensionsChanged : Bool :=
    !(decide (widthInPixels = some dimsW) && decide (heightInPixels = some dimsH))
  if dimensionsChanged = false then
    let adjustedHeight : ℚ :=
      if animated = true then
        if truthyN metaPages = true then metaHeight else dimsH
      else dimsH
    .passthrough file.data
      { height := adjustedHeight, size := file.size, width := dimsW }
  else
    .cropped (percentToPixel cropX dimsW) (percentToPixel cropY dimsH)
      widthInPixels heightInPixels

/-! ## Arithmetic facts about JS rounding -/

theorem jround_nonneg {q : ℚ} (h : 0 ≤ q) : 0 ≤ jround q := by
  unfold jround
  refine Int.le_floor.2 ?_
  push_cast
  linarith

theorem jround_le_of_le {q : ℚ} {n : ℤ} (h : q ≤ (n : ℚ)) : jround q ≤ n := by
  unfold jround
  have h2 : (⌊q + 1/2⌋ : ℤ) < n + 1 := by
    refine Int.floor_lt.2 ?_
    push_cast
    linarith
  omega

theorem le_jround_of_le {n : ℤ} {q : ℚ} (h : (n : ℚ) ≤ q) : n ≤ jround q := by
  unfold jround
  refine Int.le_floor.2 ?_
  linarith

theorem jfloor_nonneg {q : ℚ} (h : 0 ≤ q) : 0 ≤ jfloor q := by
  unfold jfloor
  exact Int.le_floor.2 (by norm_num [h])

theorem jfloor_le (q : ℚ) : ((jfloor q : ℤ) : ℚ) ≤ q := Int.floor_le q

/-- A rational that is a nonnegative integer (i.e. the value of a `uint`). -/
def IsNatQ (q : ℚ) : Prop := ∃ n : ℕ, q = (n : ℚ)

theorem isNatQ_natCast (n : ℕ) : IsNatQ (n : ℚ) := ⟨n, rfl⟩

theorem isNatQ_jround {q : ℚ} (h : 0 ≤ q) : IsNatQ ((jround q : ℤ) : ℚ) := by
  refine ⟨(jround q).toNat, ?_⟩
  have h0 : 0 ≤ jround q := jround_nonneg h
  exact_mod_cast (Int.toNat_of_nonneg h0).symm

theorem isNatQ_max {p q : ℚ} (hp : IsNatQ p) (hq : IsNatQ q) : IsNatQ (max p q) := by
  obtain ⟨a, rfl⟩ := hp
  obtain ⟨b, rfl⟩ := hq
  exact ⟨max a b, by push_cast; rfl⟩

/-- The crop bound is clamped at zero. -/
theorem cropBound_nonneg (extent target f : ℚ) : 0 ≤ cropBound extent target f := by
  simp only [cropBound]
  split_ifs <;> linarith

/-- The floored crop bound plus the target fits into any extent that bounds
both the (possibly normalized) extent used for clamping and the target. -/
theorem jfloor_cropBound_add_le {extent target raw : ℚ} (f : ℚ)
    (hext : extent ≤ raw) (ht : target ≤ raw) :
    ((jfloor (cropBound extent target f) : ℤ) : ℚ) + target ≤ raw := by
  have hc : cropBound extent target f + target ≤ raw := by
    simp only [cropBound]
    split_ifs <;> linarith
  have hfl := jfloor_le (cropBound extent target f)
  linarith

/-- A nonnegative rounded value that is nonzero is a positive natural. -/
theorem jround_pos_nat {q : ℚ} (hq : 0 ≤ q) (hne : jround q ≠ 0) :
    ∃ n : ℕ, 0 < n ∧ ((jround q : ℤ) : ℚ) = (n : ℚ) := by
  have h0 : 0 ≤ jround q := jround_nonneg hq
  refine ⟨(jround q).toNat, by omega, ?_⟩
  exact_mod_cast (Int.toNat_of_nonneg h0).symm

/-- The resolved focal resize targets are positive naturals (for a
non-animated source, where `metadata().pages` is absent). -/
theorem resolveFocalTargets_pos_nat (W H : ℕ) (cfgW cfgH : Option ℕ)
    (hW : 0 < W) (hH : 0 < H) :
    ∃ n m : ℕ, 0 < n ∧ 0 < m ∧
      resolveFocalTargets W H none cfgW cfgH = ((n : ℚ), (m : ℚ)) := by
  have hA : (0 : ℚ) ≤ (W : ℚ) / (H : ℚ) := by positivity
  rcases cfgW with _ | a <;> rcases cfgH with _ | b
  · -- neither configured: both default to the original dimensions
    exact ⟨W, H, hW, hH, by simp [resolveFocalTargets, truthyQ,
      extractHeightFromImage]⟩
  · -- only height configured
    by_cases hb : b = 0
    · subst hb
      exact ⟨W, H, hW, hH, by simp [resolveFocalTargets, truthyQ,
        extractHeightFromImage]⟩
    · have hbQ : ((b : ℚ)) ≠ 0 := Nat.cast_ne_zero.2 hb
      by_cases hj : jround ((b : ℚ) * ((W : ℚ) / (H : ℚ))) = 0
      · have hjQ : ((jround ((b : ℚ) * ((W : ℚ) / (H : ℚ))) : ℤ) : ℚ) = 0 := by
          exact_mod_cast hj
        exact ⟨W, b, hW, Nat.pos_of_ne_zero hb, by
          simp [resolveFocalTargets, truthyQ, extractHeightFromImage,
            bne_iff_ne, hbQ, hjQ]⟩
      · obtain ⟨n, hn, hcast⟩ := jround_pos_nat (by positivity) hj
        have hjQ : ((jround ((b : ℚ) * ((W : ℚ) / (H : ℚ))) : ℤ) : ℚ) ≠ 0 := by
          exact_mod_cast hj
        refine ⟨n, b, hn, Nat.pos_of_ne_zero hb, ?_⟩
        simp [resolveFocalTargets, truthyQ, extractHeightFromImage,
          bne_iff_ne, hbQ, hjQ, hcast, hn.ne']
  · -- only width configured
    by_cases ha : a = 0
    · subst ha
      exact ⟨W, H, hW, hH, by simp [resolveFocalTargets, truthyQ,
        extractHeightFromImage]⟩
    · have haQ : ((a : ℚ)) ≠ 0 := Nat.cast_ne_zero.2 ha
      by_cases hj : jround ((a : ℚ) / ((W : ℚ) / (H : ℚ))) = 0
      · have hjQ : ((jround ((a : ℚ) / ((W : ℚ) / (H : ℚ))) : ℤ) : ℚ) = 0 := by
          exact_mod_cast hj
        exact ⟨a, H, Nat.pos_of_ne_zero ha, hH, by
          simp [resolveFocalTargets, truthyQ, extractHeightFromImage,
            bne_iff_ne, haQ, hjQ]⟩
      · obtain ⟨m, hm, hcast⟩ := jround_pos_nat (by positivity) hj
        have hjQ : ((jround ((a : ℚ) / ((W : ℚ) / (H : ℚ))) : ℤ) : ℚ) ≠ 0 := by
          exact_mod_cast hj
        refine ⟨a, m, Nat.pos_of_ne_zero ha, hm, ?_⟩
        simp [resolveFocalTargets, truthyQ, extractHeightFromImage,
          bne_iff_ne, haQ, hjQ, hcast, hm.ne']
  · -- both configured
    by_cases ha : a = 0
    · subst ha
      by_cases hb : b = 0
      · subst hb
        exact ⟨W, H, hW, hH, by simp [resolveFocalTargets, truthyQ,
          extractHeightFromImage]⟩
      · have hbQ : ((b : ℚ)) ≠ 0 := Nat.cast_ne_zero.2 hb
        by_cases hj : jround ((b : ℚ) * ((W : ℚ) / (H : ℚ))) = 0
        · have hjQ : ((jround ((b : ℚ) * ((W : ℚ) / (H : ℚ))) : ℤ) : ℚ) = 0 := by
            exact_mod_cast hj
          exact ⟨W, b, hW, Nat.pos_of_ne_zero hb, by
            simp [resolveFocalTargets, truthyQ, extractHeightFromImage,
              bne_iff_ne, hbQ, hjQ]⟩
        · obtain ⟨n, hn, hcast⟩ := jround_pos_nat (by positivity) hj
          have hjQ : ((jround ((b : ℚ) * ((W : ℚ) / (H : ℚ))) : ℤ) : ℚ) ≠ 0 := by
            exact_mod_cast hj
          refine ⟨n, b, hn, Nat.pos_of_ne_zero hb, ?_⟩
          simp [resolveFocalTargets, truthyQ, extractHeightFromImage,
            bne_iff_ne, hbQ, hjQ, hcast, hn.ne']
    · have haQ : ((a : ℚ)) ≠ 0 := Nat.cast_ne_zero.2 ha
      by_cases hb : b = 0
      · subst hb
        by_cases hj : jround ((a : ℚ) / ((W : ℚ) / (H : ℚ))) = 0
        · have hjQ : ((jround ((a : ℚ) / ((W : ℚ) / (H : ℚ))) : ℤ) : ℚ) = 0 := by
            exact_mod_cast hj
          exact ⟨a, H, Nat.pos_of_ne_zero ha, hH, by
            simp [resolveFocalTargets, truthyQ, extractHeightFromImage,
              bne_iff_ne, haQ, hjQ]⟩
        · obtain ⟨m, hm, hcast⟩ := jround_pos_nat (by positivity) hj
          have hjQ : ((jround ((a : ℚ) / ((W : ℚ) / (H : ℚ))) : ℤ) : ℚ) ≠ 0 := by
            exact_mod_cast hj
          refine ⟨a, m, Nat.pos_of_ne_zero ha, hm, ?_⟩
          simp [resolveFocalTargets, truthyQ, extractHeightFromImage,
            bne_iff_ne, haQ, hjQ, hcast, hm.ne']
      · have hbQ : ((b : ℚ)) ≠ 0 := Nat.cast_ne_zero.2 hb
        refine ⟨a, b, Nat.pos_of_ne_zero ha, Nat.pos_of_ne_zero hb, ?_⟩
        simp [resolveFocalTargets, truthyQ, extractHeightFromImage,
          bne_iff_ne, haQ, hbQ]

/-- The `cover` pre-scale with only a height: width follows the aspect
ratio uncapped, height is exact. -/
theorem calc_cover_only_height (imageW imageH : ℚ) (th : ℚ) (hth : th ≠ 0) :
    calculateResizeDimensions imageW imageH none (some th) .cover =
      (((jround (th * (imageW / imageH)) : ℤ) : ℚ), th) := by
  simp [calculateResizeDimensions, truthyQ, bne_iff_ne, hth]

/-- The `cover` pre-scale with only a width: height follows the aspect
ratio uncapped, width is exact. -/
theorem calc_cover_only_width (imageW imageH : ℚ) (tw : ℚ) (htw : tw ≠ 0) :
    calculateResizeDimensions imageW imageH (some tw) none .cover =
      (tw, ((jround (tw / (imageW / imageH)) : ℤ) : ℚ)) := by
  simp [calculateResizeDimensions, truthyQ, bne_iff_ne, htw]

/-! ## Claim theorems -/

/-- C1: for every positive original dimensions, every configured target
width/height, and every focal point, the crop window computed by the
focal-crop branch satisfies `0 ≤ left`, `0 ≤ top`,
`left + width ≤ prescaleWidth` and `top + height ≤ prescaleHeight`, where
the pre-scale dimensions are the ones read back from the encode result
(src/resize-and-transform.ts lines 256-313; `metadata()` of this
repository's wrapper never reports `pages`, so the source is taken
non-animated). -/
theorem focal_crop_window_invariant (W H : ℕ) (cfgW cfgH : Option ℕ)
    (focalX focalY : ℚ) (hW : 0 < W) (hH : 0 < H) :
    0 ≤ (focalCropPlan W H none cfgW cfgH focalX focalY).window.left ∧
    0 ≤ (focalCropPlan W H none cfgW cfgH focalX focalY).window.top ∧
    ((focalCropPlan W H none cfgW cfgH focalX focalY).window.left : ℚ) +
        (focalCropPlan W H none cfgW cfgH focalX focalY).window.width ≤
      (focalCropPlan W H none cfgW cfgH focalX focalY).prescaleWidth ∧
    ((focalCropPlan W H none cfgW cfgH focalX focalY).window.top : ℚ) +
        (focalCropPlan W H none cfgW cfgH focalX focalY).window.height ≤
      (focalCropPlan W H none cfgW cfgH focalX focalY).prescaleHeight := by
  obtain ⟨n, m, hn, hm, hrt⟩ := resolveFocalTargets_pos_nat W H cfgW cfgH hW hH
  have hnQ : (0 : ℚ) < (n : ℚ) := by exact_mod_cast hn
  have hmQ : (0 : ℚ) < (m : ℚ) := by exact_mod_cast hm
  have hWQ : (0 : ℚ) < (W : ℚ) := by exact_mod_cast hW
  have hHQ : (0 : ℚ) < (H : ℚ) := by exact_mod_cast hH
  have hA : (0 : ℚ) < (W : ℚ) / (H : ℚ) := by positivity
  by_cases hP : ((n : ℚ) / (m : ℚ) < (W : ℚ) / (H : ℚ))
  · -- prioritizeHeight: pre-scale to exactly the target height; the
    -- read-back width round(h*aspect) bounds the target width
    have key : ((n : ℕ) : ℚ) ≤
        ((jround ((m : ℚ) * ((W : ℚ) / (H : ℚ))) : ℤ) : ℚ) := by
      have h1 : ((n : ℕ) : ℚ) < ((W : ℚ) / (H : ℚ)) * (m : ℚ) :=
        (div_lt_iff₀ hmQ).1 hP
      have h2 : ((n : ℕ) : ℤ) ≤ jround ((m : ℚ) * ((W : ℚ) / (H : ℚ))) :=
        le_jround_of_le (by push_cast; linarith)
      exact_mod_cast h2
    simp only [focalCropPlan, hrt, focalPrescale, extractHeightFromImage, hP,
      decide_True, if_true]
    rw [calc_cover_only_height (W : ℚ) (H : ℚ) (m : ℚ) hmQ.ne']
    refine ⟨jfloor_nonneg (cropBound_nonneg _ _ _),
      jfloor_nonneg (cropBound_nonneg _ _ _), ?_, ?_⟩
    · exact jfloor_cropBound_add_le focalX (le_refl _) key
    · exact jfloor_cropBound_add_le focalY (le_refl _) (le_refl _)
  · -- no height priority: pre-scale to exactly the target width; the
    -- read-back height round(w/aspect) bounds the target height
    have key : ((m : ℕ) : ℚ) ≤
        ((jround ((n : ℚ) / ((W : ℚ) / (H : ℚ))) : ℤ) : ℚ) := by
      have h1 : ((W : ℚ) / (H : ℚ)) * (m : ℚ) ≤ (n : ℚ) := by
        have := (le_div_iff₀ hmQ).1 (not_lt.1 hP)
        linarith
      have h1' : ((m : ℕ) : ℚ) ≤ (n : ℚ) / ((W : ℚ) / (H : ℚ)) := by
        rw [le_div_iff₀ hA]
        linarith
      have h2 : ((m : ℕ) : ℤ) ≤ jround ((n : ℚ) / ((W : ℚ) / (H : ℚ))) :=
        le_jround_of_le (by push_cast; linarith)
      exact_mod_cast h2
    simp only [focalCropPlan, hrt, focalPrescale, extractHeightFromImage, hP,
      decide_False, Bool.false_eq_true, if_false]
    rw [calc_cover_only_width (W : ℚ) (H : ℚ) (n : ℚ) hnQ.ne']
    refine ⟨jfloor_nonneg (cropBound_nonneg _ _ _),
      jfloor_nonneg (cropBound_nonneg _ _ _), ?_, ?_⟩
    · exact jfloor_cropBound_add_le focalX (le_refl _) (le_refl _)
    · exact jfloor_cropBound_add_le focalY (le_refl _) key

/-- C1 witness: the invariant at the concrete 1000×500 original with a
300×300 target and focal point (80,50). -/
theorem focal_crop_window_invariant_witness :
    0 ≤ (focalCropPlan 1000 500 none (some 300) (some 300) 80 50).window.left ∧
    0 ≤ (focalCropPlan 1000 500 none (some 300) (some 300) 80 50).window.top ∧
    ((focalCropPlan 1000 500 none (some 300) (some 300) 80 50).window.left : ℚ) +
        (focalCropPlan 1000 500 none (some 300) (some 300) 80 50).window.width ≤
      (focalCropPlan 1000 500 none (some 300) (some 300) 80 50).prescaleWidth ∧
    ((focalCropPlan 1000 500 none (some 300) (some 300) 80 50).window.top : ℚ) +
        (focalCropPlan 1000 500 none (some 300) (some 300) 80 50).window.height ≤
      (focalCropPlan 1000 500 none (some 300) (some 300) 80 50).prescaleHeight :=
  focal_crop_window_invariant 1000 500 (some 300) (some 300) 80 50
    (by norm_num) (by norm_num)

/-- C3: when both target axes are set, `withoutEnlargement` is unset, and
the original is strictly smaller than the target along both axes,
`getImageResizeAction` returns `omit` (rule 1, src/resize-and-transform.ts
lines 102-109), regardless of fit, `withoutReduction` and focal point. -/
theorem omit_when_original_smaller_both_axes
    (origW origH a b : ℕ) (fit : Option Fit) (withoutReduction : Option Bool)
    (hasFocalPoint : Bool) (hw : origW < a) (hh : origH < b) :
    getImageResizeAction origW origH (some a) (some b) fit none
      withoutReduction hasFocalPoint = .omit := by
  have ha : truthyN (some a) = true := by simp [truthyN]; omega
  have hb : truthyN (some b) = true := by simp [truthyN]; omega
  unfold getImageResizeAction
  rw [if_pos ⟨hb, ha, rfl, by simpa using hw, by simpa using hh⟩]

/-- C3 witness: original 100×100, target 200×200, `withoutEnlargement`
unset, yields `omit`. -/
theorem omit_when_original_smaller_both_axes_witness :
    getImageResizeAction 100 100 (some 200) (some 200) none none none
      false = .omit :=
  omit_when_original_smaller_both_axes 100 100 200 200 none none false
    (by norm_num) (by norm_num)

/-- C6: when neither omission rule matches and the original aspect ratio
equals the target aspect ratio (with `|| 1` fallbacks for a missing axis),
`getImageResizeAction` returns `resize` even when a focal point is present
(rules 3-5, src/resize-and-transform.ts lines 123-136). -/
theorem aspect_equal_returns_resize
    (origW origH : ℕ) (tw th : Option ℕ) (fit : Option Fit)
    (wE wR : Option Bool) (hasFocalPoint : Bool)
    (h1 : ¬(truthyN th = true ∧ truthyN tw = true ∧ wE = none ∧
        origW < tw.getD 0 ∧ origH < th.getD 0))
    (h2 : ¬(wE = none ∧ (truthyN tw = false ∨ truthyN th = false) ∧
        ((truthyN tw = true ∧ origW < tw.getD 0) ∨
          (truthyN th = true ∧ origH < th.getD 0))))
    (heq : (origW : ℚ) / (origH : ℚ) = (jsOr1 tw : ℚ) / (jsOr1 th : ℚ)) :
    getImageResizeAction origW origH tw th fit wE wR hasFocalPoint = .resize := by
  unfold getImageResizeAction
  rw [if_neg h1, if_neg h2]
  by_cases h3 : fit = some .contain ∨ fit = some .inside
  · rw [if_pos h3]
  · rw [if_neg h3]
    by_cases h4 : tw = none ∧ th = none
    · rw [if_pos h4]
    · rw [if_neg h4, if_pos heq]

/-- C6 witness: original 1600×900 with target 800×450 and a focal point
present yields `resize` (aspect ratios both 16/9). -/
theorem aspect_equal_returns_resize_witness :
    getImageResizeAction 1600 900 (some 800) (some 450) none none none
      true = .resize :=
  aspect_equal_returns_resize 1600 900 (some 800) (some 450) none none none
    true (by decide) (by decide) (by norm_num [jsOr1])

/-- C7: for an animated source type reporting a frame count of at least
two, the reported variant height is the raw encoded height divided by the
frame count (src/resize-and-transform.ts lines 399-402). -/
theorem animated_height_normalized (mimetype : String) (n : ℕ) (raw : ℚ)
    (hmt : fileIsAnimatedType mimetype = true) (hn : 2 ≤ n) :
    reportedVariantHeight (fileIsAnimatedType mimetype) (some n) raw =
      raw / (n : ℚ) := by
  unfold reportedVariantHeight
  rw [if_pos ⟨hmt, by simp [truthyN]; omega⟩]
  simp

/-- C7 witness: a gif with 4 frames and raw encoded height 800 reports
height 200. -/
theorem animated_height_normalized_witness :
    reportedVariantHeight (fileIsAnimatedType "image/gif") (some 4) 800 =
      200 := by
  rw [animated_height_normalized "image/gif" 4 800 (by decide) (by norm_num)]
  norm_num

/-- C9: the `originalImageIsSmallerXOrY` test (used by rules 6 and 7 of
`getImageResizeAction`, src/resize-and-transform.ts lines 120-121 and
138-144) substitutes 0 for an unset target axis, so along a missing axis
the original is never considered smaller — only the present axis decides,
and with both axes missing the test is false outright. -/
theorem smaller_test_zero_fallback (origW origH : ℕ) (tw th : Option ℕ) :
    (originalImageIsSmallerXOrY origW origH none th = true ↔
      origH < th.getD 0) ∧
    (originalImageIsSmallerXOrY origW origH tw none = true ↔
      origW < tw.getD 0) ∧
    originalImageIsSmallerXOrY origW origH none none = false := by
  unfold originalImageIsSmallerXOrY
  simp

/-- C8: when the decision for a variant is `omit`, the per-variant step
returns the all-null `createResult({name})` with no file to save and makes
no raster-engine call (src/resize-and-transform.ts lines 227-229 and
55-84). -/
theorem omit_variant_all_null (origW origH : ℕ) (spec : SizeSpec)
    (hasFocalPoint : Bool)
    (engineWork : SizeSpec → ImageSizesResult × List EngineCall)
    (h : getImageResizeAction origW origH (sanitizeResizeConfig spec).width
        (sanitizeResizeConfig spec).height (sanitizeResizeConfig spec).fit
        (sanitizeResizeConfig spec).withoutEnlargement
        (sanitizeResizeConfig spec).withoutReduction hasFocalPoint = .omit) :
    variantStep origW origH spec hasFocalPoint engineWork =
      ({ sizeName := spec.name
         record := { filename := none, filesize := none, height := none,
                     mimeType := none, width := none }
         sizesToSave := [] }, []) := by
  simp [variantStep, h, createResult]

/-- C8 witness: a 100×100 original with a 200×200 target (rule-1 omission)
produces the all-null result and an empty engine-call list, for a
continuation that would otherwise resize. -/
theorem omit_variant_all_null_witness :
    variantStep 100 100
      { name := "thumb", width := some 200, height := some 200, fit := none,
        position := none, withoutEnlargement := none,
        withoutReduction := none } false
      (fun _ => (createResult "thumb", [.resize, .toBuffer])) =
      ({ sizeName := "thumb"
         record := { filename := none, filesize := none, height := none,
                     mimeType := none, width := none }
         sizesToSave := [] }, []) := by
  refine omit_variant_all_null 100 100 _ false _ ?_
  decide

/-- C4: the focal-crop branch on a 1000×500 original with target 300×300
and focal point (80,50) prioritizes height (target aspect 1 < original
aspect 2), pre-scales to 600×300, and — after resetting the left bound
because 330+300 exceeds 600 — crops the window
`{left: 300, top: 0, width: 300, height: 300}`. -/
theorem focal_example_1000x500 :
    focalCropPlan 1000 500 none (some 300) (some 300) 80 50 =
      { prioritizeHeight := true
        prescaleWidth := 600
        prescaleHeight := 300
        window := { left := 300, top := 0, width := 300, height := 300 } } := by
  simp [focalCropPlan, resolveFocalTargets, focalPrescale,
    calculateResizeDimensions, extractHeightFromImage, cropBound, truthyQ,
    jround, jfloor]
  norm_num

/-- C2 counterexample: a 1000×1 original with only `width: 1` requested
yields a computed height of `round(1/1000) = 0`, which is not `≥ 1`. -/
theorem calc_dimensions_height_zero :
    (calculateResizeDimensions ((1000 : ℕ) : ℚ) ((1 : ℕ) : ℚ)
        (some ((1 : ℕ) : ℚ)) none .cover).2 = 0 ∧
      ¬(1 ≤ (calculateResizeDimensions ((1000 : ℕ) : ℚ) ((1 : ℕ) : ℚ)
        (some ((1 : ℕ) : ℚ)) none .cover).2) := by
  norm_num [calculateResizeDimensions, truthyQ, jround]

/-- C2 amended: for every positive original and every request, the
computed dimensions are nonnegative integers (the axis derived from the
aspect ratio can round to 0, so `≥ 1` does not hold in general). -/
theorem calc_dimensions_nonneg_integers (origW origH : ℕ) (tw th : Option ℕ)
    (fit : Fit) (hW : 0 < origW) (hH : 0 < origH) :
    IsNatQ (calculateResizeDimensions (origW : ℚ) (origH : ℚ)
        (tw.map (Nat.cast : ℕ → ℚ)) (th.map (Nat.cast : ℕ → ℚ)) fit).1 ∧
    IsNatQ (calculateResizeDimensions (origW : ℚ) (origH : ℚ)
        (tw.map (Nat.cast : ℕ → ℚ)) (th.map (Nat.cast : ℕ → ℚ)) fit).2 := by
  have hA : (0 : ℚ) ≤ (origW : ℚ) / (origH : ℚ) := by positivity
  rcases tw with _ | a <;> rcases th with _ | b
  · -- neither target set: original dimensions pass through
    simp [calculateResizeDimensions, truthyQ]
    exact ⟨isNatQ_natCast _, isNatQ_natCast _⟩
  · -- only height set
    by_cases hb : (b : ℚ) = 0
    · simp [calculateResizeDimensions, truthyQ, hb]
      exact ⟨isNatQ_natCast _, isNatQ_natCast _⟩
    · simp [calculateResizeDimensions, truthyQ, bne_iff_ne, hb]
      exact ⟨isNatQ_jround (by positivity), isNatQ_natCast _⟩
  · -- only width set
    by_cases ha : (a : ℚ) = 0
    · simp [calculateResizeDimensions, truthyQ, ha]
      exact ⟨isNatQ_natCast _, isNatQ_natCast _⟩
    · simp [calculateResizeDimensions, truthyQ, bne_iff_ne, ha]
      exact ⟨isNatQ_natCast _, isNatQ_jround (by positivity)⟩
  · -- both targets set
    by_cases ha : (a : ℚ) = 0
    · by_cases hb : (b : ℚ) = 0
      · simp [calculateResizeDimensions, truthyQ, ha, hb]
        exact ⟨isNatQ_natCast _, isNatQ_natCast _⟩
      · simp [calculateResizeDimensions, truthyQ, bne_iff_ne, ha, hb]
        exact ⟨isNatQ_jround (by positivity), isNatQ_natCast _⟩
    · by_cases hb : (b : ℚ) = 0
      · simp [calculateResizeDimensions, truthyQ, bne_iff_ne, ha, hb]
        exact ⟨isNatQ_natCast _, isNatQ_jround (by positivity)⟩
      · simp only [calculateResizeDimensions, Option.map_some', truthyQ,
          Option.getD_some]
        rw [if_pos ⟨by simp [bne_iff_ne]; exact_mod_cast ha,
          by simp [bne_iff_ne]; exact_mod_cast hb⟩]
        split_ifs <;>
          first
            | exact ⟨isNatQ_natCast _, isNatQ_natCast _⟩
            | exact ⟨isNatQ_natCast _, isNatQ_jround (by positivity)⟩
            | exact ⟨isNatQ_jround (by positivity), isNatQ_natCast _⟩
            | (obtain ⟨m, hm⟩ := isNatQ_max (isNatQ_natCast a)
                  (isNatQ_jround (q := (b : ℚ) * ((origW : ℚ) / (origH : ℚ)))
                    (by positivity))
               rw [hm]
               exact ⟨isNatQ_natCast m, isNatQ_jround (by positivity)⟩)
            | (obtain ⟨m, hm⟩ := isNatQ_max (isNatQ_natCast b)
                  (isNatQ_jround (q := (a : ℚ) / ((origW : ℚ) / (origH : ℚ)))
                    (by positivity))
               rw [hm]
               exact ⟨isNatQ_jround (by positivity), isNatQ_natCast m⟩)

/-- C2 amended witness: a 100×100 original with an `inside` 50×50 request
produces a nonnegative-integer pair. -/
theorem calc_dimensions_nonneg_integers_witness :
    IsNatQ (calculateResizeDimensions ((100 : ℕ) : ℚ) ((100 : ℕ) : ℚ)
        ((some (50 : ℕ)).map (Nat.cast : ℕ → ℚ))
        ((some (50 : ℕ)).map (Nat.cast : ℕ → ℚ)) .inside).1 ∧
    IsNatQ (calculateResizeDimensions ((100 : ℕ) : ℚ) ((100 : ℕ) : ℚ)
        ((some (50 : ℕ)).map (Nat.cast : ℕ → ℚ))
        ((some (50 : ℕ)).map (Nat.cast : ℕ → ℚ)) .inside).2 :=
  calc_dimensions_nonneg_integers 100 100 (some 50) (some 50) .inside
    (by norm_num) (by norm_num)

/-- C5: with `fit = inside` and both positive targets set, the computed
width and height never exceed their targets (src/sharp-wrapper.ts lines
1113-1132). -/
theorem inside_within_targets (origW origH a b : ℕ)
    (hW : 0 < origW) (hH : 0 < origH) (ha : 0 < a) (hb : 0 < b) :
    (calculateResizeDimensions (origW : ℚ) (origH : ℚ) (some (a : ℚ))
        (some (b : ℚ)) .inside).1 ≤ (a : ℚ) ∧
    (calculateResizeDimensions (origW : ℚ) (origH : ℚ) (some (a : ℚ))
        (some (b : ℚ)) .inside).2 ≤ (b : ℚ) := by
  have hWQ : (0 : ℚ) < (origW : ℚ) := by exact_mod_cast hW
  have hHQ : (0 : ℚ) < (origH : ℚ) := by exact_mod_cast hH
  have haQ : (0 : ℚ) < (a : ℚ) := by exact_mod_cast ha
  have hbQ : (0 : ℚ) < (b : ℚ) := by exact_mod_cast hb
  have hAQ : (0 : ℚ) < (origW : ℚ) / (origH : ℚ) := by positivity
  have htw : truthyQ (some (a : ℚ)) = true := by
    simp only [truthyQ, bne_iff_ne, ne_eq, decide_eq_true_eq]
    exact haQ.ne'
  have hth : truthyQ (some (b : ℚ)) = true := by
    simp only [truthyQ, bne_iff_ne, ne_eq, decide_eq_true_eq]
    exact hbQ.ne'
  unfold calculateResizeDimensions
  rw [if_pos ⟨htw, hth⟩]
  simp only [Option.getD_some]
  rw [if_neg (by decide : ¬(Fit.inside = Fit.fill)), if_pos (Or.inr trivial)]
  split_ifs with h1 h2 h3
  · -- width-limiting, but the inside correction cannot fire
    exfalso
    have hlt : (a : ℚ) / ((origW : ℚ) / (origH : ℚ)) < (b : ℚ) := by
      rw [div_lt_iff₀ hAQ]
      calc (a : ℚ) < ((origW : ℚ) / (origH : ℚ)) * (b : ℚ) := by
            have := (div_lt_iff₀ hbQ).1 h1
            linarith
        _ = (b : ℚ) * ((origW : ℚ) / (origH : ℚ)) := by ring
    have hle : jround ((a : ℚ) / ((origW : ℚ) / (origH : ℚ))) ≤ ((b : ℕ) : ℤ) :=
      jround_le_of_le (by push_cast; linarith)
    have : ((jround ((a : ℚ) / ((origW : ℚ) / (origH : ℚ))) : ℤ) : ℚ) ≤ (b : ℚ) := by
      exact_mod_cast hle
    linarith [h2.1]
  · -- width-limiting, no correction: (a, round(a / aspect))
    refine ⟨le_refl _, ?_⟩
    have hlt : (a : ℚ) / ((origW : ℚ) / (origH : ℚ)) < (b : ℚ) := by
      rw [div_lt_iff₀ hAQ]
      calc (a : ℚ) < ((origW : ℚ) / (origH : ℚ)) * (b : ℚ) := by
            have := (div_lt_iff₀ hbQ).1 h1
            linarith
        _ = (b : ℚ) * ((origW : ℚ) / (origH : ℚ)) := by ring
    have hle : jround ((a : ℚ) / ((origW : ℚ) / (origH : ℚ))) ≤ ((b : ℕ) : ℤ) :=
      jround_le_of_le (by push_cast; linarith)
    show ((jround ((a : ℚ) / ((origW : ℚ) / (origH : ℚ))) : ℤ) : ℚ) ≤ (b : ℚ)
    exact_mod_cast hle
  · -- height-limiting, but the inside correction cannot fire
    exfalso
    have hle' : (b : ℚ) * ((origW : ℚ) / (origH : ℚ)) ≤ (a : ℚ) := by
      have h1' : (origW : ℚ) / (origH : ℚ) ≤ (a : ℚ) / (b : ℚ) := not_lt.1 h1
      calc (b : ℚ) * ((origW : ℚ) / (origH : ℚ)) ≤ (b : ℚ) * ((a : ℚ) / (b : ℚ)) := by
            exact mul_le_mul_of_nonneg_left h1' hbQ.le
        _ = (a : ℚ) := by field_simp
    have hle : jround ((b : ℚ) * ((origW : ℚ) / (origH : ℚ))) ≤ ((a : ℕ) : ℤ) :=
      jround_le_of_le (by push_cast; linarith)
    have : ((jround ((b : ℚ) * ((origW : ℚ) / (origH : ℚ))) : ℤ) : ℚ) ≤ (a : ℚ) := by
      exact_mod_cast hle
    linarith [h3.1]
  · -- height-limiting, no correction: (round(b * aspect), b)
    refine ⟨?_, le_refl _⟩
    have hle' : (b : ℚ) * ((origW : ℚ) / (origH : ℚ)) ≤ (a : ℚ) := by
      have h1' : (origW : ℚ) / (origH : ℚ) ≤ (a : ℚ) / (b : ℚ) := not_lt.1 h1
      calc (b : ℚ) * ((origW : ℚ) / (origH : ℚ)) ≤ (b : ℚ) * ((a : ℚ) / (b : ℚ)) := by
            exact mul_le_mul_of_nonneg_left h1' hbQ.le
        _ = (a : ℚ) := by field_simp
    have hle : jround ((b : ℚ) * ((origW : ℚ) / (origH : ℚ))) ≤ ((a : ℕ) : ℤ) :=
      jround_le_of_le (by push_cast; linarith)
    show ((jround ((b : ℚ) * ((origW : ℚ) / (origH : ℚ))) : ℤ) : ℚ) ≤ (a : ℚ)
    exact_mod_cast hle

/-- C5 witness: a 400×300 original resized `inside` a 200×200 box stays
within the box. -/
theorem inside_within_targets_witness :
    (calculateResizeDimensions ((400 : ℕ) : ℚ) ((300 : ℕ) : ℚ)
        (some ((200 : ℕ) : ℚ)) (some ((200 : ℕ) : ℚ)) .inside).1 ≤
      ((200 : ℕ) : ℚ) ∧
    (calculateResizeDimensions ((400 : ℕ) : ℚ) ((300 : ℕ) : ℚ)
        (some ((200 : ℕ) : ℚ)) (some ((200 : ℕ) : ℚ)) .inside).2 ≤
      ((200 : ℕ) : ℚ) :=
  inside_within_targets 400 300 200 200 (by norm_num) (by norm_num)
    (by norm_num) (by norm_num)

/-- C10: `cropImage` with pixel dimensions equal to the probed dimensions
and a non-animated mimetype returns the original bytes unchanged with
`info = {height, size, width}` taken from the inputs, never reaching the
`extract` crop, whatever the crop percentages are (src/crop-image.ts lines
33-59). -/
theorem crop_noop_when_dimensions_unchanged
    (cropX cropY dimsW dimsH : ℚ) (file : PayloadFileModel)
    (metaPages : Option ℕ) (metaHeight : ℚ)
    (hmt : fileIsAnimatedType file.mimetype = false) :
    cropImageModel cropX cropY dimsW dimsH file (some dimsW) (some dimsH)
      metaPages metaHeight =
      .passthrough file.data
        { height := dimsH, size := file.size, width := dimsW } := by
  unfold cropImageModel
  simp [hmt]

/-- C10 witness: a PNG with unchanged 800×600 dimensions passes through
with its own bytes and size, despite a nonzero crop percentage. -/
theorem crop_noop_when_dimensions_unchanged_witness :
    cropImageModel 10 10 800 600
      { data := 7, size := 1234, mimetype := "image/png" }
      (some 800) (some 600) none 0 =
      .passthrough 7 { height := 600, size := 1234, width := 800 } :=
  crop_noop_when_dimensions_unchanged 10 10 800 600
    { data := 7, size := 1234, mimetype := "image/png" } none 0 (by decide)

end SharpJS
